import Mathlib

/-!
Verification of the CSV-backed issue tracker (src/app.py).

Records read from CSV files are Python dicts mapping field names to string
values; we model them as association lists `Dict` with lookup `pyGet`
(Python's `dict.get`, returning `none` for a missing key) and in-place key
assignment `dictSet` (Python's `d[k] = v`, which overwrites the first
occurrence of the key, preserving its position, or appends a fresh key).

File I/O is modelled at the parsed-row level: a CSV file is its header row
plus its data rows (`CsvFile`); the `csv` module's quoting of individual
cells is taken as the (bijective) serialization boundary.  Flask's session
is a record of optional string values, `none` standing for an absent key.
The dashboard's datetime parser is abstracted as a parameter
`parse : String -> Option Int` (seconds; `none` models a raised
ValueError); the fields it is applied to are read from the issue dicts.
-/

/-- A Python dict with string keys and string values, as read from CSV. -/
abbrev Dict := List (String × String)

/-- Python `d.get(k)`: value at the first occurrence of key `k`, if any. -/
def pyGet (d : Dict) (k : String) : Option String :=
  (d.find? (fun p => p.1 == k)).map (·.2)

/-- Python `d.get(k, dflt)`. -/
def pyGetD (d : Dict) (k dflt : String) : String :=
  (pyGet d k).getD dflt

/-- Python `d[k] = v`: overwrite the first occurrence of `k` in place, else append. -/
def dictSet (d : Dict) (k v : String) : Dict :=
  match d with
  | [] => [(k, v)]
  | p :: t => if p.1 == k then (k, v) :: t else p :: dictSet t k v

/-- Truthiness of an optional string session value (Python `if x:`). -/
def truthyO (o : Option String) : Bool :=
  match o with
  | some s => s ≠ ""
  | none => false

/-- A CSV file at the parsed-row level: header row plus data rows. -/
structure CsvFile where
  headers : List String
  rows : List (List String)
deriving DecidableEq

/-- write_csv from src/app.py: always writes the header row; each record is
written as one row holding, for each declared header, the record's value at
that field (fields outside the headers are filtered out; a missing field is
written as the empty string, csv.DictWriter's restval). -/
def write_csv (data : List Dict) (headers : List String) : CsvFile :=
  ⟨headers, data.map (fun r => headers.map (fun h => (pyGet r h).getD ""))⟩

/-- read_csv from src/app.py: csv.DictReader pairs the header row with each
data row, yielding one dict per row. -/
def read_csv (f : CsvFile) : List Dict :=
  f.rows.map (fun row => f.headers.zip row)

/-- Python `s.isdigit()` on an id string: nonempty and all decimal digits. -/
def isDigits (s : String) : Bool :=
  s ≠ "" && s.data.all Char.isDigit

/-- Python `int(s)` on a string of decimal digits. -/
def digitsToNat (s : String) : Nat :=
  s.data.foldl (fun n c => 10 * n + (c.toNat - 48)) 0

/-- The numeric ids of a collection, exactly as get_next_id collects them:
`int(row[id_field])` over rows whose id field is present, truthy and all
decimal digits (anything else is skipped). -/
def numeric_ids (data : List Dict) (id_field : String) : List Nat :=
  data.filterMap (fun row =>
    match pyGet row id_field with
    | some s => if isDigits s then some (digitsToNat s) else none
    | none => none)

/-- get_next_id from src/app.py: 1 on an empty collection; otherwise the
maximum numeric id plus 1, or 1 when no row has a numeric id. -/
def get_next_id (data : List Dict) (id_field : String) : Nat :=
  if data.isEmpty then 1
  else
    let ids := numeric_ids data id_field
    if ids.isEmpty then 1 else ids.foldl Nat.max 0 + 1

/-- ADMIN_USERS from src/app.py: the hardcoded admin allow-list. -/
def ADMIN_USERS : List String := ["sanath.kumar@cloudphysician.net"]

/-- Python `s.lower()`. -/
def pyLower (s : String) : String :=
  String.mk (s.data.map Char.toLower)

/-- is_admin from src/app.py: case-insensitive membership in the allow-list. -/
def is_admin (adminUsers : List String) (email : String) : Bool :=
  (adminUsers.map pyLower).contains (pyLower email)

/-- get_user_by_email from src/app.py: first user whose email field equals
the query exactly (Python `user.get('email') == email`). -/
def get_user_by_email (users : List Dict) (email : String) : Option Dict :=
  users.find? (fun u => pyGet u "email" == some email)

/-- get_user_by_id from src/app.py. -/
def get_user_by_id (users : List Dict) (uid : String) : Option Dict :=
  users.find? (fun u => pyGet u "id" == some uid)

/-- create_or_update_user from src/app.py: if a user with the same email
exists, remove every record with that exact email and append the update,
carrying over the existing record's id; otherwise append a fresh record
with the next free id and a defaulted role.  (The source indexes
`user_data['email']`; every caller supplies the email field.) -/
def create_or_update_user (user_data : Dict) (users : List Dict) : Dict × List Dict :=
  let e := pyGetD user_data "email" ""
  match get_user_by_email users e with
  | some existing =>
      let d := dictSet user_data "id" (pyGetD existing "id" "")
      (d, users.filter (fun u => pyGet u "email" != some e) ++ [d])
  | none =>
      let d1 := dictSet user_data "id" (toString (get_next_id users "id"))
      let d2 := dictSet d1 "role" (pyGetD d1 "role" "member")
      (d2, users ++ [d2])

/-- save_issue from src/app.py: a truthy id updates by remove-then-append;
otherwise a fresh id is assigned and the record appended. -/
def save_issue (issue : Dict) (issues : List Dict) : Dict × List Dict :=
  let idv := pyGetD issue "id" ""
  if idv ≠ "" then
    (issue, issues.filter (fun i => pyGet i "id" != some idv) ++ [issue])
  else
    let issue2 := dictSet issue "id" (toString (get_next_id issues "id"))
    (issue2, issues ++ [issue2])

/-- close_issue from src/app.py: absent id aborts with a not-found error;
an already-closed issue (truthy dateClosed) is an informational no-op; an
open issue gets dateClosed set to the current time and status Closed, then
is persisted through save_issue.  Returns the new collection and the flash
message. -/
def close_issue (now : String) (issue_id : String) (issues : List Dict) :
    List Dict × String :=
  match issues.find? (fun i => pyGet i "id" == some issue_id) with
  | none => (issues, "Issue not found")
  | some issue =>
    if pyGetD issue "dateClosed" "" ≠ "" then
      (issues, "Issue is already closed")
    else
      let issue2 := dictSet (dictSet issue "dateClosed" now) "status" "Closed"
      ((save_issue issue2 issues).2, "Issue closed successfully")

/-- A hospital record: a dict with fields name and zone. -/
structure Hospital where
  name : String
  zone : String
deriving DecidableEq

/-- DEFAULT_HOSPITALS from src/app.py, first chunk (the literal is split
into chunks purely to keep elaboration fast; DEFAULT_HOSPITALS below is
their concatenation, in source order). -/
def DEFAULT_HOSPITALS_1 : List Hospital := [
  ⟨"Aarogya Hapur", ""⟩,
  ⟨"Aastha", ""⟩,
  ⟨"Abirami Kidney Care - Erode", ""⟩,
  ⟨"Abishek Hospital - Arakkonam", ""⟩,
  ⟨"Adarsh Hospital - Ramdurg", ""⟩,
  ⟨"Adarsh Hospital - Rosera", ""⟩,
  ⟨"Adarsha Hospital - Karimnagar", ""⟩,
  ⟨"Aditya Warangal", ""⟩,
  ⟨"Akash Super Speciality", ""⟩,
  ⟨"Akshar Hospital - Ahmedabad", ""⟩,
  ⟨"Anand Hospital - Chennai", ""⟩,
  ⟨"Anil Neuro and Trauma - Vijayawada", ""⟩,
  ⟨"Antara Care Homes - Bengaluru", ""⟩,
  ⟨"Anurag Healthcare - Vijayawada", ""⟩,
  ⟨"Apex", ""⟩,
  ⟨"Apex Hospital - Katni", ""⟩,
  ⟨"Arora Hospital - Rudrapur", ""⟩,
  ⟨"Aryavrat Hospital - Haridwar", ""⟩,
  ⟨"Ashirvad", ""⟩,
  ⟨"Ashirwad Hospital - Navi Mumbai", ""⟩,
  ⟨"Ashish JRC", ""⟩,
  ⟨"Ashish Jabalpur", ""⟩,
  ⟨"Ashoka Hospital - Singhia", ""⟩,
  ⟨"Ashoka Life Care", ""⟩,
  ⟨"Ashwini Hospital - Yellareddypet", ""⟩,
  ⟨"Asian Noble - Ahilya Nagar", ""⟩,
  ⟨"Aswani Multispeciality - Manvi", ""⟩,
  ⟨"Atlantis Gopalganj", ""⟩,
  ⟨"Aveksha", ""⟩,
  ⟨"Ayushman Bhav Hospital - Panipat", ""⟩,
  ⟨"BGR Hospital - Dharmapuri", ""⟩,
  ⟨"BHIO", ""⟩,
  ⟨"BMS", ""⟩,
  ⟨"Baa Ganga Hospital - Supaul", ""⟩,
  ⟨"Balaji Robotic Rehab Hospital - Salem", ""⟩,
  ⟨"Berlin General Hospital - Ranchi", ""⟩,
  ⟨"Bhate Hospital - Belagavi", ""⟩,
  ⟨"Bhoomi Hospital - Hyderabad", ""⟩,
  ⟨"Bramhapuri Hospital and Research Institute", ""⟩,
  ⟨"Bugga Reddy - Shadnagar", ""⟩,
  ⟨"CCH Davangere", ""⟩,
  ⟨"Cachar", ""⟩,
  ⟨"Care centre", "Care centre"⟩,
  ⟨"CentraCare - Belagavi", ""⟩,
  ⟨"Charak Hospital - Indore", ""⟩,
  ⟨"Charak Lucknow", ""⟩,
  ⟨"Chendure Hospital - Samalapuram", ""⟩,
  ⟨"Chirayu Children\x27s Hospital - Baramati", ""⟩,
  ⟨"Chitradurga Multispeciality", ""⟩,
  ⟨"City Hospital - Bijnor", ""⟩
]

/-- DEFAULT_HOSPITALS from src/app.py, chunk 2. -/
def DEFAULT_HOSPITALS_2 : List Hospital := [
  ⟨"City Hospital Buldhana", ""⟩,
  ⟨"ClearMedi Paridhi Hospital - Gwalior", ""⟩,
  ⟨"Credence Care - Navi Mumbai", ""⟩,
  ⟨"Currex Hospital - Bengaluru", ""⟩,
  ⟨"Cutis & Kids Hospital - Bareilly", ""⟩,
  ⟨"Cytecare", ""⟩,
  ⟨"D P Bora - Lucknow", ""⟩,
  ⟨"DORD Hospital - Daudnagar", ""⟩,
  ⟨"Darbhanga Children Hospital", ""⟩,
  ⟨"Daulat Memorial Clinic - Washim", ""⟩,
  ⟨"David Multispeciality - Vaniyambadi", ""⟩,
  ⟨"Devibai Hospital - Nirmal", ""⟩,
  ⟨"Dhakne Hospital - Pune", ""⟩,
  ⟨"Dharani - Mahabubabad", ""⟩,
  ⟨"Dr. Amit Agarwal Childcare Hospital", ""⟩,
  ⟨"Dr. Dasarathan Memorial Hospital", ""⟩,
  ⟨"Dr. Mendadkar\x27s Children Hospital", ""⟩,
  ⟨"Dr. Pankaj Sharma Hospital", ""⟩,
  ⟨"Dr. Patil Hospital - Madha", ""⟩,
  ⟨"Dr. Preeti Hospital - Prayagraj", ""⟩,
  ⟨"Dr. Prem Hospital", ""⟩,
  ⟨"Dr. R. K. Thakur Hospital", ""⟩,
  ⟨"Dr. Ravi Khanna\x27s Vatsalya", ""⟩,
  ⟨"Durga Hospital - Jaunpur", ""⟩,
  ⟨"East Delhi Advance NICU", ""⟩,
  ⟨"FIMS Hospital - Coimbatore", ""⟩,
  ⟨"Faridabad Medical Center", ""⟩,
  ⟨"Flamingo Chennai", ""⟩,
  ⟨"Fortune Hospital - Kanpur", ""⟩,
  ⟨"G Guru Gopiram", ""⟩,
  ⟨"GBN Hospital - Bhainsa", ""⟩,
  ⟨"GSL Swatantra Hospital", ""⟩,
  ⟨"Gandhi Nursing Home - Rajnandgaon", ""⟩,
  ⟨"Giriraj Hospital - Baramati", ""⟩,
  ⟨"Goyal Hospital - Faridabad", ""⟩,
  ⟨"HCG Bhavnagar", ""⟩,
  ⟨"HCG Cuttack", ""⟩,
  ⟨"HCG EKO", ""⟩,
  ⟨"HCG Kalaburagi", ""⟩,
  ⟨"HCG Mumbai", ""⟩,
  ⟨"HCG Nagpur", ""⟩,
  ⟨"HCG Ranchi", ""⟩,
  ⟨"HCG Vijayawada", ""⟩,
  ⟨"HMC Hospital - Gummidipoondi", ""⟩,
  ⟨"HMH Hospital - Najibabad", ""⟩,
  ⟨"Hada Multispeciality Hospital - Dahod", ""⟩,
  ⟨"Hare Krishna - Begowal", ""⟩,
  ⟨"Heritage Hospital - Gorakhpur", ""⟩,
  ⟨"Hindustan Child Hospital", ""⟩,
  ⟨"ICON hospital - Nalgonda", ""⟩
]

/-- DEFAULT_HOSPITALS from src/app.py, chunk 3. -/
def DEFAULT_HOSPITALS_3 : List Hospital := [
  ⟨"IIGH - Cuttack", ""⟩,
  ⟨"Ideal Children Hospital - Varanasi", ""⟩,
  ⟨"Imax Multispeciality - Pune", ""⟩,
  ⟨"Inamdar Multispeciality Hospital", ""⟩,
  ⟨"Indus Hospital - Visakhapatnam", ""⟩,
  ⟨"J.V.M. Mother and Child - Tenali", ""⟩,
  ⟨"JGR Hospital - Pithapuram_ICU", ""⟩,
  ⟨"Jai Patai Mata Hospital - Patewa", ""⟩,
  ⟨"Janani Hospital - Hosur", ""⟩,
  ⟨"Jivan Jyot - Vadodara", ""⟩,
  ⟨"Kailash Superspeciality Hospital", ""⟩,
  ⟨"Kalghatgi", ""⟩,
  ⟨"Kalindi Hospital - Kushinagar", ""⟩,
  ⟨"Kalpataru Hospital - Anjangaon", ""⟩,
  ⟨"Kalpit Hospital - Khalilabad", ""⟩,
  ⟨"Kamal Mahajan Hospital - Amritsar", ""⟩,
  ⟨"Kamala Hospitals - Kovilpatti", ""⟩,
  ⟨"Kaneria - Junagadh", ""⟩,
  ⟨"Kanha - Orai", ""⟩,
  ⟨"Karpagam Hospital - Othakkalmandapam", ""⟩,
  ⟨"Kavan Hospital - Harur", ""⟩,
  ⟨"Keerthana Visakhapatnam", ""⟩,
  ⟨"Keshav Heritage", ""⟩,
  ⟨"Kirti Multispeciality - Bhandara", ""⟩,
  ⟨"Kochhar Nursing Home - Tumsar", ""⟩,
  ⟨"Krishna Children - Hyderabad", ""⟩,
  ⟨"Krishna Children - Pusad", ""⟩,
  ⟨"Krishna Hospital - Samastipur", ""⟩,
  ⟨"Krishna Superspeciality - Bhatinda", ""⟩,
  ⟨"Krishnammal Memorial - Theni", ""⟩,
  ⟨"Kshema - Hubbali", ""⟩,
  ⟨"Laalityam Hospital-Hyderabad", ""⟩,
  ⟨"Laalityam Hospitals - Hyderabad", ""⟩,
  ⟨"Lakhichand", ""⟩,
  ⟨"Lakshya Super Speciality - Proddatur", ""⟩,
  ⟨"Leonard Hospital - Batlagundu", ""⟩,
  ⟨"Life Care Hospital", ""⟩,
  ⟨"Life Hospital - Chirala", ""⟩,
  ⟨"Life Hospital - Guntur", ""⟩,
  ⟨"Life Line Daltonganj", ""⟩,
  ⟨"Lifepoint - Pune", ""⟩,
  ⟨"Livasa Hospital - Khanna", ""⟩,
  ⟨"Lotus Hospital - Belagavi", ""⟩,
  ⟨"MAHAN Trust", ""⟩,
  ⟨"MB Multispeciality - Visakhapatnam", ""⟩,
  ⟨"MK Nursing Home - Chennai", ""⟩,
  ⟨"MMH Rajapalayam", ""⟩,
  ⟨"MR Thanjavur", ""⟩,
  ⟨"MRNH", ""⟩,
  ⟨"MS Multispeciality - Pithapuram", ""⟩
]

/-- DEFAULT_HOSPITALS from src/app.py, chunk 4. -/
def DEFAULT_HOSPITALS_4 : List Hospital := [
  ⟨"Maa Sharada Vikarabad", ""⟩,
  ⟨"Mahalakshmi Multispeciality - Ulundurpet", ""⟩,
  ⟨"Mahathma Gandhi - Narasaraopeta", ""⟩,
  ⟨"Maiyan Babu Hospital - Daltonganj", ""⟩,
  ⟨"Manwath Multi-Speciality Hospital", ""⟩,
  ⟨"Mawana Healthcare Center", ""⟩,
  ⟨"Maxfort Aligarh", ""⟩,
  ⟨"Maxlife Superspeciality - Bareilly", ""⟩,
  ⟨"Medical Trust Hospital", ""⟩,
  ⟨"Medifort Hospital - Bhagalpur", ""⟩,
  ⟨"Mediversal Maatri - Patna", ""⟩,
  ⟨"Medway Heart Institute - Kodambakkam", ""⟩,
  ⟨"Medway Hospitals - Erode", ""⟩,
  ⟨"Meera Multispeciality - Hosur", ""⟩,
  ⟨"Metro Super Speciality Hospital - Vijayawada", ""⟩,
  ⟨"Mundhra Hospital - Chaibasa", ""⟩,
  ⟨"Muniya Nadar Memorial - Thanjavur", ""⟩,
  ⟨"Mythri - Bengaluru", ""⟩,
  ⟨"NDR Hospital - Bangalore", ""⟩,
  ⟨"Nageshwari Gopalganj", ""⟩,
  ⟨"Nalanda Bone & Spine", ""⟩,
  ⟨"Nankem Hospital - Coonoor", ""⟩,
  ⟨"Navjeevan Children\x27s - Pandharpur", ""⟩,
  ⟨"Navjivan Multispeciality - Sitamarhi", ""⟩,
  ⟨"Neo TrueNorth - Bengaluru", ""⟩,
  ⟨"Neurolife Hospital - Bathinda", ""⟩,
  ⟨"Neuron Plus - Karad", ""⟩,
  ⟨"New Venkatesh Hospital - Manwath", ""⟩,
  ⟨"Nidan Healthcare - Hazaribagh", ""⟩,
  ⟨"Nikhil - Dilsukhnagar", ""⟩,
  ⟨"Nikhil - Srinagar Colony", ""⟩,
  ⟨"Nizar Hospital - Malappuram", ""⟩,
  ⟨"OSG Laparoscopy Hospital", ""⟩,
  ⟨"Omkilkari Hospital - Varanasi", ""⟩,
  ⟨"Ours Hospital - Hisar", ""⟩,
  ⟨"P V Cancer Centre - Sathyamangalam", ""⟩,
  ⟨"PMH Dhanbad", ""⟩,
  ⟨"Pakur Nursing Home", ""⟩,
  ⟨"Parameshwari Devi - New Delhi", ""⟩,
  ⟨"Paramount Mumbai", ""⟩,
  ⟨"Paridhi", ""⟩,
  ⟨"Parmar Hospital - Karnal", ""⟩,
  ⟨"Patil Hospital - Koregaon", ""⟩,
  ⟨"Perumalla Hospital - Nalgonda", ""⟩,
  ⟨"Pranav Hospital - Brahmavara", ""⟩,
  ⟨"Pranayu Hospital - Thane", ""⟩,
  ⟨"Prasad Athani", ""⟩,
  ⟨"Prasad Global Hospital - Prasad Medical Centre", ""⟩,
  ⟨"Prashant", ""⟩,
  ⟨"Pratheep Nursing Home", ""⟩
]

/-- DEFAULT_HOSPITALS from src/app.py, chunk 5. -/
def DEFAULT_HOSPITALS_5 : List Hospital := [
  ⟨"Priya Hospital - Varanasi", ""⟩,
  ⟨"Punya Hospital - Bengaluru", ""⟩,
  ⟨"Queen\x27s NRI Hospital - Vizianagaram", ""⟩,
  ⟨"RD Multi Speciality Hospital", ""⟩,
  ⟨"RMD Nursing Home - T. Nagar", ""⟩,
  ⟨"RMD Specialities Hospital - Amarambedu", ""⟩,
  ⟨"RN Pandey - Gonda", ""⟩,
  ⟨"RPS Hospital - Kharak", ""⟩,
  ⟨"RadOn Cancer Centre", ""⟩,
  ⟨"Radhakrishna Hospital - Tanuku", ""⟩,
  ⟨"Rahul Multispeciality Hospital - Kothakota", ""⟩,
  ⟨"Rajawat Hospital - Kanpur", ""⟩,
  ⟨"Rajesh Neuro Foundation - Nagercoil", ""⟩,
  ⟨"Rajeswari Multispeciality - Rameswaram", ""⟩,
  ⟨"Rajshekar Multi Speciality - Bengaluru", ""⟩,
  ⟨"Rakshit Sirsa", ""⟩,
  ⟨"Rebirth ICU & Hospital - Junagadh", ""⟩,
  ⟨"Reform Healthcare - Patna", ""⟩,
  ⟨"Regal", ""⟩,
  ⟨"Relief Hospital - Boisar", ""⟩,
  ⟨"Relief Hospital - Palghar", ""⟩,
  ⟨"Renee Hospital - Karimnagar", ""⟩,
  ⟨"Renova Neelima - Hyderabad", ""⟩,
  ⟨"S.D.A. Medical Center - Bengaluru", ""⟩,
  ⟨"SNS Hospital - Neyveli", ""⟩,
  ⟨"SV Clinic - Palladam", ""⟩,
  ⟨"SV Yennam Hospital", ""⟩,
  ⟨"SVCA - Darbhanga", ""⟩,
  ⟨"SWASA Hyderabad", ""⟩,
  ⟨"Sadguru Children Hospital - Nadiad", ""⟩,
  ⟨"Sadhana - Mudhol", ""⟩,
  ⟨"Sahaj Hospital - Indore", ""⟩,
  ⟨"Sahasra Hospital - Bengaluru", ""⟩,
  ⟨"Sai Ram - Kurnool", ""⟩,
  ⟨"Samarth Hospital - Selu", ""⟩,
  ⟨"San Joe Hospital - Ernakulam", ""⟩,
  ⟨"Sanjeevani - Bilaspur", ""⟩,
  ⟨"Sanjeevani Samastipur", ""⟩,
  ⟨"Sanjeevani Superspeciality - Nagpur", ""⟩,
  ⟨"Sanjivani Sirsa", ""⟩,
  ⟨"Sankalp Hospital", ""⟩,
  ⟨"Sanrohi Hospital - Zaheerabad", ""⟩,
  ⟨"Santevita Ranchi", ""⟩,
  ⟨"Sarayu Children\x27s Hospital - Sircilla", ""⟩,
  ⟨"Saroj Hospital - Jhansi", ""⟩,
  ⟨"Sarvodya Hospital - Jalandhar", ""⟩,
  ⟨"Sarvottam Hospital - Bhopal", ""⟩,
  ⟨"Satya Kalindi - Muzaffarpur", ""⟩,
  ⟨"Satyadev Superspeciality Patna", ""⟩,
  ⟨"Shahnaaz Rural", ""⟩
]

/-- DEFAULT_HOSPITALS from src/app.py, chunk 6. -/
def DEFAULT_HOSPITALS_6 : List Hospital := [
  ⟨"Shameer Hospital - Kunigal", ""⟩,
  ⟨"Shanti Hospital - Jaunpur", ""⟩,
  ⟨"Sharanabasava Hospital, Yadgir", ""⟩,
  ⟨"Shifa Hospital - Tirunelveli", ""⟩,
  ⟨"Shishu Bhavan Hospital - Bilaspur", ""⟩,
  ⟨"Shiv Kamal Memorial - Bhagalpur", ""⟩,
  ⟨"Shiv Seva Sadan - DM Hospital", ""⟩,
  ⟨"Shree Ganesha - Shirur", ""⟩,
  ⟨"Shree Hospital", ""⟩,
  ⟨"Shree Narsinh - Balod", ""⟩,
  ⟨"Shree Sai Baba Hospital - Sinnar", ""⟩,
  ⟨"Shree Sathya Subha", ""⟩,
  ⟨"Shree Vishudhanand - Kolkata", ""⟩,
  ⟨"Shri Shyam Kotputli", ""⟩,
  ⟨"Shriram Hospital - Sultanpur", ""⟩,
  ⟨"Shyam Child Care & Maternity Centre", ""⟩,
  ⟨"Shyavi Sanjeevini - Ilkal", ""⟩,
  ⟨"Siddhi Vinayak Hospital", ""⟩,
  ⟨"Siddhivinayak Children\x27s Hospital - Ahilya Nagar", ""⟩,
  ⟨"Siu Ka Pha Hospital", ""⟩,
  ⟨"Smart Rajamahendravaram", ""⟩,
  ⟨"Sowmiya Hospital - Karamadai", ""⟩,
  ⟨"Spandan - Belagavi", ""⟩,
  ⟨"Spandan Jamnagar", ""⟩,
  ⟨"Sravani Hospital - Guntur", ""⟩,
  ⟨"Sree Ayyappa - Kozhencherry", ""⟩,
  ⟨"Sri Ganga - Rajamahendravaram", ""⟩,
  ⟨"Sri Keshav - Rajamahendravaram", ""⟩,
  ⟨"Sri Sai Ganga Nursing Home", ""⟩,
  ⟨"Sri Sai Hospital - Bengaluru", ""⟩,
  ⟨"Sri Sai Life Line - Karimnagar", ""⟩,
  ⟨"Sri Sai Life Line - Karinmagar", ""⟩,
  ⟨"Sri Sri Holistic - Proddatur", ""⟩,
  ⟨"Sri Suraksha Multispeciality - Gudivada", ""⟩,
  ⟨"Srinivasa Hospital - Hyderabad", ""⟩,
  ⟨"Sripathi Hospet", ""⟩,
  ⟨"St. Theresa - Vellore", ""⟩,
  ⟨"Stork Hospital - Hyderabad", ""⟩,
  ⟨"Sunrise Godda", ""⟩,
  ⟨"Sunrise Patna", ""⟩,
  ⟨"Sunrise Varanasi", ""⟩,
  ⟨"Sunseed Hospitals - Hyderabad", ""⟩,
  ⟨"Sunstar Hospital - Rajamahendravaram", ""⟩,
  ⟨"Surendra Hospital - Angul", ""⟩,
  ⟨"Suriyan Hospital - Tiruvannamalai", ""⟩,
  ⟨"Surya Super Speciality - Sahibganj", ""⟩,
  ⟨"Sushruta Bhubaneswar", ""⟩,
  ⟨"Synergy Global", ""⟩,
  ⟨"TLM Chandkhuri", ""⟩,
  ⟨"Taneja Hospital - Jagraon", ""⟩
]

/-- DEFAULT_HOSPITALS from src/app.py, chunk 7. -/
def DEFAULT_HOSPITALS_7 : List Hospital := [
  ⟨"Tridev Deoghar", ""⟩,
  ⟨"Trust-In Hospital - Bengaluru", ""⟩,
  ⟨"Tulip Superspeciality - Pandharpur", ""⟩,
  ⟨"Udayananda Hospital - Nandyal", ""⟩,
  ⟨"United City - Ahmednagar", ""⟩,
  ⟨"Urmila Devi Memorial Hospital", ""⟩,
  ⟨"V Care - Bengaluru", ""⟩,
  ⟨"V Care - Hubli", ""⟩,
  ⟨"VGK Heart Institute - Raichur", ""⟩,
  ⟨"Vajra Hospitals - Hyderabad", ""⟩,
  ⟨"Valentis Cancer Hospital - Meerut", ""⟩,
  ⟨"Varad Multispeciality - Atpadi", ""⟩,
  ⟨"Varad Multispeciality Hospital", ""⟩,
  ⟨"Varasiddii Hospital - Gangavati", ""⟩,
  ⟨"Vardaan Hospital - Ranchi", ""⟩,
  ⟨"Vardhaman Hospital - Guna", ""⟩,
  ⟨"Ved Hospital - Kheda", ""⟩,
  ⟨"Vedanta Hospital - Bulandshahr", ""⟩,
  ⟨"Vijaya Global Hospital - Belagavi", ""⟩,
  ⟨"Vijaya Golbal Hospital - Belagavi", ""⟩,
  ⟨"Vijaya Multi-Speciality - Sankeshwar", ""⟩,
  ⟨"Vijaya Ortho & Trauma - Belagavi", ""⟩,
  ⟨"Viva Shadnagar", ""⟩,
  ⟨"Vivekanand Hospital - Khalilabad", ""⟩,
  ⟨"Vivekananda Memorial Hospital - Saragur", ""⟩,
  ⟨"WIINS Kolhapur", ""⟩,
  ⟨"Willis F. Pierce Memorial - Wai", ""⟩,
  ⟨"Yashwantrao Chavan - Junnar", ""⟩,
  ⟨"Yogyam Hospital - Vasai", ""⟩
]

/-- DEFAULT_HOSPITALS from src/app.py: the built-in hospital list (329 entries). -/
def DEFAULT_HOSPITALS : List Hospital :=
  DEFAULT_HOSPITALS_1 ++ DEFAULT_HOSPITALS_2 ++ DEFAULT_HOSPITALS_3 ++ DEFAULT_HOSPITALS_4 ++ DEFAULT_HOSPITALS_5 ++ DEFAULT_HOSPITALS_6 ++ DEFAULT_HOSPITALS_7

/-- get_hospitals from src/app.py: when the stored list is empty or shorter
than the default list, the defaults are saved back and returned; otherwise
the stored list is returned unchanged.  Result: (returned list, new stored
list). -/
def get_hospitals (stored : List Hospital) : List Hospital × List Hospital :=
  if stored.isEmpty || stored.length < DEFAULT_HOSPITALS.length then
    (DEFAULT_HOSPITALS, DEFAULT_HOSPITALS)
  else
    (stored, stored)

/-- delete_hospital from src/app.py: reads through get_hospitals (which may
restore the defaults first), removes every hospital with the given name and
saves the result.  Returns the new stored list. -/
def delete_hospital (name : String) (stored : List Hospital) : List Hospital :=
  ((get_hospitals stored).1).filter (fun h => h.name != name)

/-- A Flask session, restricted to the keys the identity resolver touches;
`none` stands for an absent key. -/
structure Session where
  userId : Option String
  userEmail : Option String
  userRole : Option String
deriving DecidableEq

/-- refresh_user_role from src/app.py (the before_request identity
resolver): with both user_id and user_email keys present it recovers a
missing email from the stored record, then, for an allow-listed email,
persists role admin when the stored role differs and sets the session role
to admin; for a non-allow-listed email it only copies the stored record's
role into the session, leaving the stored collection untouched. -/
def refresh_user_role (adminUsers : List String) (sess : Session)
    (users : List Dict) : Session × List Dict :=
  if sess.userId.isSome && sess.userEmail.isSome then
    let step1 : Option String × Session :=
      if truthyO sess.userEmail then (sess.userEmail, sess)
      else
        if truthyO sess.userId then
          match get_user_by_id users (sess.userId.getD "") with
          | some u => (pyGet u "email", { sess with userEmail := pyGet u "email" })
          | none => (sess.userEmail, sess)
        else (sess.userEmail, sess)
    let sess1 := step1.2
    match step1.1 with
    | some em =>
      if em ≠ "" then
        if is_admin adminUsers em then
          match get_user_by_email users em with
          | some u =>
            let users2 :=
              if pyGet u "role" != some "admin" then
                (create_or_update_user (dictSet u "role" "admin") users).2
              else users
            ({ sess1 with userRole := some "admin" }, users2)
          | none => (sess1, users)
        else
          match get_user_by_email users em with
          | some u => ({ sess1 with userRole := some (pyGetD u "role" "member") }, users)
          | none => (sess1, users)
      else (sess1, users)
    | none => (sess1, users)
  else (sess, users)

/-- Python `s.split(sep)` on a list of characters (one-character separator). -/
def splitChar (sep : Char) : List Char → List (List Char)
  | [] => [[]]
  | c :: t =>
    if c == sep then [] :: splitChar sep t
    else
      match splitChar sep t with
      | [] => [[c]]
      | h :: t2 => (c :: h) :: t2

/-- Python `s.split(',')`. -/
def pySplitComma (s : String) : List String :=
  (splitChar ',' s.data).map String.mk

/-- Contiguous substring test on character lists. -/
def strInAux (n : List Char) : List Char → Bool
  | [] => n.isEmpty
  | c :: t => n.isPrefixOf (c :: t) || strInAux n t

/-- Python `needle in hay` on strings (contiguous substring test). -/
def strIn (needle hay : String) : Bool :=
  strInAux needle.data hay.data

/-- Python `s.startswith(p)`. -/
def pyStartsWith (s p : String) : Bool :=
  p.data.isPrefixOf s.data

/-- The query arguments of the /issues route; an empty string stands for an
absent (or falsy) argument, matching the route's truthiness tests.
user_name is the session's user_name used by the my_tasks filter. -/
structure IssuesArgs where
  my_tasks : Bool
  category : String
  hospital : String
  zone_filter : String
  priority_filter : String
  status_filter : String
  search : String
  user_name : String

/-- The my_tasks filter of the /issues route: issues owned or co-owned by
the session user and not Closed. -/
def my_tasks_filter (name : String) (issues : List Dict) : List Dict :=
  issues.filter (fun i =>
    (pyGet i "mainOwner" == some name
      || (pySplitComma (pyGetD i "coOwners" "")).contains name)
    && pyGet i "status" != some "Closed")

/-- The category filter of the /issues route: with a truthy filter value,
keep issues whose category equals the value exactly or starts with the
value followed by a colon and a space. -/
def category_filter (category : String) (issues : List Dict) : List Dict :=
  if category ≠ "" then
    issues.filter (fun i =>
      pyGetD i "category" "" == category
        || pyStartsWith (pyGetD i "category" "") (category ++ ": "))
  else issues

/-- The search filter of the /issues route: lower-cased substring match
against taskName, description, hospitalUnit and category. -/
def search_filter (search0 : String) (issues : List Dict) : List Dict :=
  let s := pyLower search0
  if s ≠ "" then
    issues.filter (fun i =>
      strIn s (pyLower (pyGetD i "taskName" ""))
        || strIn s (pyLower (pyGetD i "description" ""))
        || strIn s (pyLower (pyGetD i "hospitalUnit" ""))
        || strIn s (pyLower (pyGetD i "category" "")))
  else issues

/-- The full filter chain of the /issues route, in source order. -/
def issues_filtered (a : IssuesArgs) (all : List Dict) : List Dict :=
  let l0 := if a.my_tasks then my_tasks_filter a.user_name all else all
  let l1 := category_filter a.category l0
  let l2 := if a.hospital ≠ "" then
      l1.filter (fun i => pyGet i "hospitalUnit" == some a.hospital) else l1
  let l3 := if a.zone_filter ≠ "" then
      l2.filter (fun i => pyGet i "zone" == some a.zone_filter) else l2
  let l4 := if a.priority_filter ≠ "" then
      l3.filter (fun i => pyGet i "priority" == some a.priority_filter) else l3
  let l5 := if a.status_filter ≠ "" then
      l4.filter (fun i => pyGet i "status" == some a.status_filter) else l4
  search_filter a.search l5

/-- The status-sync test of the /issues route: dateClosed truthy while
status differs from Closed. -/
def needs_status_sync (i : Dict) : Bool :=
  pyGetD i "dateClosed" "" ≠ "" && pyGet i "status" != some "Closed"

/-- The status-sync correction applied to a displayed issue. -/
def sync_status (i : Dict) : Dict :=
  dictSet i "status" "Closed"

/-- The batch rewrite of the /issues route: each corrected issue replaces
every stored record with its id (remove-then-append). -/
def batch_update (all upds : List Dict) : List Dict :=
  upds.foldl (fun acc u => acc.filter (fun i => pyGet i "id" != pyGet u "id") ++ [u]) all

/-- The stored issues collection after one /issues listing, given the
post-sort display order `sorted` of the filtered issues. -/
def issues_listing_store (all sorted : List Dict) : List Dict :=
  batch_update all ((sorted.filter needs_status_sync).map sync_status)

/-- One /issues listing as a relation between the stored collection before
and after: the route sorts the filtered issues with a key that parses
timestamps, so the display order is some permutation of the filtered list;
every corrected issue is then persisted by the batch rewrite.  Pagination
happens after the rewrite and does not touch the store. -/
def IssuesListing (a : IssuesArgs) (all result : List Dict) : Prop :=
  ∃ sorted, sorted.Perm (issues_filtered a all) ∧
    result = issues_listing_store all sorted

/-- ISSUES_HEADERS from src/app.py: the declared schema of issues.csv.
Creation time is stored under dateLogged; there is no time_started column. -/
def ISSUES_HEADERS : List String :=
  ["id", "hospitalUnit", "zone", "priority", "category", "taskName", "description",
   "mainOwner", "coOwners", "dueDate", "status", "dateLogged", "dateClosed",
   "createdBy", "lastModified", "lastModifiedBy", "resolvedBy", "stepsTaken",
   "reviewNotes"]

/-- The timestamp prologue of the dashboard's per-issue pass: the route
reads the creation time from the issue's time_started field and the close
time from dateClosed, parsing each only when truthy; the try/except makes a
parse failure of either reset both to None.  `parse` abstracts
datetime.fromisoformat after the Z-replacement, `none` a raised error. -/
def dashboard_issue_times (parse : String → Option Int) (issue : Dict) :
    Option Int × Option Int :=
  let rawS := pyGetD issue "time_started" ""
  let rawC := pyGetD issue "dateClosed" ""
  if rawS ≠ "" ∧ parse rawS = none then (none, none)
  else if rawC ≠ "" ∧ parse rawC = none then (none, none)
  else ((if rawS ≠ "" then parse rawS else none),
    (if rawC ≠ "" then parse rawC else none))

/-- Round-half-to-even on a rational, Python's round applied to an exactly
representable value. -/
def round_half_even (q : ℚ) : ℤ :=
  let f := ⌊q⌋
  let r := q - f
  if r < 1/2 then f
  else if 1/2 < r then f + 1
  else if Even f then f else f + 1

/-- Python `round(x, 1)`. -/
def pyRound1 (q : ℚ) : ℚ :=
  (round_half_even (q * 10) : ℚ) / 10

/-- One step of the dashboard's resolution-time accumulation: an issue with
a parsed close time and a parsed start time contributes its whole-day span
(timedelta.days, floor division of the span by 86400 seconds) and a count
of one. -/
def dashboard_resolution_step (parse : String → Option Int)
    (tc : Int × Nat) (issue : Dict) : Int × Nat :=
  match (dashboard_issue_times parse issue).2 with
  | some closed =>
    match (dashboard_issue_times parse issue).1 with
    | some started => (tc.1 + Int.fdiv (closed - started) 86400, tc.2 + 1)
    | none => tc
  | none => tc

/-- avgResolutionTime as the dashboard route computes it over the stored
issue dicts: the rounded mean of the accumulated whole-day spans, or 0
when no issue was counted. -/
def dashboard_resolution (parse : String → Option Int) (issues : List Dict) : ℚ :=
  let tc := issues.foldl (dashboard_resolution_step parse) ((0 : Int), (0 : Nat))
  if tc.2 > 0 then pyRound1 ((tc.1 : ℚ) / (tc.2 : ℚ)) else 0

/-- The average the claim describes: the rounded arithmetic mean of the
given per-issue whole-day spans. -/
def claim_avg (spans : List Int) : ℚ :=
  if spans.isEmpty then 0 else pyRound1 ((spans.sum : ℚ) / (spans.length : ℚ))

/-- A parse table giving the three ISO timestamps of the failing input
their epoch-second values. -/
def iso_epoch_parse : String → Option Int := fun s =>
  if s = "2024-01-01T00:00:00" then some 1704067200
  else if s = "2024-01-04T00:00:00" then some 1704326400
  else if s = "2024-01-05T00:00:00" then some 1704412800
  else none

/-- A stored issue closed exactly three whole days after its creation
(dateLogged), carrying exactly the issues.csv schema fields. -/
def issue_closed_3_days : Dict :=
  [("id", "1"), ("hospitalUnit", "H1"), ("zone", ""), ("priority", "High"),
   ("category", "Ops"), ("taskName", "t1"), ("description", ""),
   ("mainOwner", ""), ("coOwners", ""), ("dueDate", ""), ("status", "Closed"),
   ("dateLogged", "2024-01-01T00:00:00"), ("dateClosed", "2024-01-04T00:00:00"),
   ("createdBy", ""), ("lastModified", ""), ("lastModifiedBy", ""),
   ("resolvedBy", ""), ("stepsTaken", ""), ("reviewNotes", "")]

/-- A stored issue closed exactly four whole days after its creation. -/
def issue_closed_4_days : Dict :=
  [("id", "2"), ("hospitalUnit", "H1"), ("zone", ""), ("priority", "High"),
   ("category", "Ops"), ("taskName", "t2"), ("description", ""),
   ("mainOwner", ""), ("coOwners", ""), ("dueDate", ""), ("status", "Closed"),
   ("dateLogged", "2024-01-01T00:00:00"), ("dateClosed", "2024-01-05T00:00:00"),
   ("createdBy", ""), ("lastModified", ""), ("lastModifiedBy", ""),
   ("resolvedBy", ""), ("stepsTaken", ""), ("reviewNotes", "")]

/-! Helper lemmas about the dict model. -/

theorem pyGet_cons (p : String × String) (t : Dict) (k : String) :
    pyGet (p :: t) k = if p.1 == k then some p.2 else pyGet t k := by
  simp only [pyGet, List.find?]
  cases h : (p.1 == k) <;> simp [h]

theorem pyGet_dictSet_self (d : Dict) (k v : String) :
    pyGet (dictSet d k v) k = some v := by
  induction d with
  | nil => simp [dictSet, pyGet_cons]
  | cons p t ih =>
    by_cases h : p.1 = k
    · simp [dictSet, h, pyGet_cons]
    · simp only [dictSet]
      rw [if_neg (by simpa using h), pyGet_cons, if_neg (by simpa using h)]
      exact ih

theorem pyGet_dictSet_ne (d : Dict) (k k' v : String) (hne : k' ≠ k) :
    pyGet (dictSet d k v) k' = pyGet d k' := by
  induction d with
  | nil => simp [dictSet, pyGet_cons, pyGet, hne, Ne.symm hne]
  | cons p t ih =>
    by_cases h : p.1 = k
    · simp only [dictSet]
      rw [if_pos (by simpa using h), pyGet_cons, pyGet_cons]
      simp [h, Ne.symm hne]
    · simp only [dictSet]
      rw [if_neg (by simpa using h), pyGet_cons, pyGet_cons]
      cases hpk : (p.1 == k') <;> simp [hpk, ih]

theorem pyGet_eq_some_mem {d : Dict} {k v : String} (h : pyGet d k = some v) :
    (k, v) ∈ d := by
  induction d with
  | nil => simp [pyGet] at h
  | cons p t ih =>
    rw [pyGet_cons] at h
    by_cases hpk : p.1 = k
    · rw [if_pos (by simpa using hpk)] at h
      cases p
      simp_all
    · rw [if_neg (by simpa using hpk)] at h
      exact List.mem_cons_of_mem _ (ih h)

theorem pyGet_map_pair (headers : List String) (f : String → String) (k : String) :
    pyGet (headers.map (fun h => (h, f h))) k =
      if k ∈ headers then some (f k) else none := by
  induction headers with
  | nil => simp [pyGet]
  | cons h t ih =>
    rw [List.map_cons, pyGet_cons]
    by_cases hk : h = k
    · subst hk
      simp
    · rw [if_neg (by simpa using hk), ih]
      simp [Ne.symm hk, hk]

/-! Helper lemmas about folded maxima, for get_next_id. -/

theorem foldl_max_init_le (l : List Nat) (a : Nat) : a ≤ l.foldl Nat.max a := by
  induction l generalizing a with
  | nil => simp
  | cons x t ih => exact le_trans (Nat.le_max_left a x) (ih (Nat.max a x))

theorem mem_le_foldl_max (l : List Nat) (a n : Nat) (h : n ∈ l) :
    n ≤ l.foldl Nat.max a := by
  induction l generalizing a with
  | nil => simp at h
  | cons x t ih =>
    rcases List.mem_cons.mp h with rfl | hm
    · exact le_trans (Nat.le_max_right a n) (foldl_max_init_le t (Nat.max a n))
    · exact ih (Nat.max a x) hm

theorem foldl_max_mem_or_init (l : List Nat) (a : Nat) :
    l.foldl Nat.max a ∈ l ∨ l.foldl Nat.max a = a := by
  induction l generalizing a with
  | nil => simp
  | cons x t ih =>
    rcases ih (Nat.max a x) with hm | he
    · exact Or.inl (List.mem_cons_of_mem _ hm)
    · rw [List.foldl_cons, he]
      rcases Nat.le_total a x with h | h
      · have hx : Nat.max a x = x := Nat.max_eq_right h
        exact Or.inl (by rw [hx]; exact List.mem_cons_self x t)
      · exact Or.inr (Nat.max_eq_left h)

/-- C4: get_next_id returns 1 on an empty collection and when no record has
a numeric id; otherwise it returns one plus the maximum of the numeric ids
(non-numeric or missing ids being excluded), and the returned value is
strictly greater than every numeric id present. -/
theorem get_next_id_spec (data : List Dict) (id_field : String) :
    (data = [] → get_next_id data id_field = 1) ∧
    (numeric_ids data id_field = [] → get_next_id data id_field = 1) ∧
    (numeric_ids data id_field ≠ [] →
      ∃ m, m ∈ numeric_ids data id_field ∧
        (∀ n ∈ numeric_ids data id_field, n ≤ m) ∧
        get_next_id data id_field = m + 1) ∧
    (∀ n ∈ numeric_ids data id_field, n < get_next_id data id_field) := by
  refine ⟨?_, ?_, ?_, ?_⟩
  · intro h
    simp [get_next_id, h]
  · intro h
    simp only [get_next_id, numeric_ids] at h ⊢
    rw [h]
    simp
  · intro h
    have hdata : ¬ data.isEmpty := by
      intro hd
      rw [List.isEmpty_iff] at hd
      subst hd
      exact h rfl
    refine ⟨(numeric_ids data id_field).foldl Nat.max 0, ?_, ?_, ?_⟩
    · rcases foldl_max_mem_or_init (numeric_ids data id_field) 0 with hm | hz
      · exact hm
      · rw [hz]
        rcases List.exists_mem_of_ne_nil _ h with ⟨n, hn⟩
        have := mem_le_foldl_max (numeric_ids data id_field) 0 n hn
        rw [hz] at this
        have : n = 0 := Nat.le_zero.mp this
        exact this ▸ hn
    · exact fun n hn => mem_le_foldl_max _ 0 n hn
    · simp only [get_next_id, numeric_ids] at *
      rw [if_neg hdata, if_neg (by simpa [List.isEmpty_iff] using h)]
  · intro n hn
    have hne : numeric_ids data id_field ≠ [] := by
      intro h0
      rw [h0] at hn
      simp at hn
    have hdata : ¬ data.isEmpty := by
      intro hd
      rw [List.isEmpty_iff] at hd
      subst hd
      exact hne rfl
    have hle := mem_le_foldl_max (numeric_ids data id_field) 0 n hn
    simp only [get_next_id, numeric_ids] at *
    rw [if_neg hdata, if_neg (by simpa [List.isEmpty_iff] using hne)]
    omega

/-- Witness for get_next_id_spec on a concrete three-record collection with
a numeric id 4, a non-numeric id and a record missing the id field. -/
theorem get_next_id_spec_witness :
    numeric_ids [[("id", "4")], [("id", "x")], [("name", "n")]] "id" ≠ [] ∧
    ∃ m, m ∈ numeric_ids [[("id", "4")], [("id", "x")], [("name", "n")]] "id" ∧
      (∀ n ∈ numeric_ids [[("id", "4")], [("id", "x")], [("name", "n")]] "id", n ≤ m) ∧
      get_next_id [[("id", "4")], [("id", "x")], [("name", "n")]] "id" = m + 1 :=
  ⟨by decide, (get_next_id_spec [[("id", "4")], [("id", "x")], [("name", "n")]] "id").2.2.1 (by decide)⟩

/-- Prefix test in terms of string concatenation. -/
theorem pyStartsWith_iff (s p : String) :
    pyStartsWith s p = true ↔ ∃ r : String, s = p ++ r := by
  constructor
  · intro h
    rw [pyStartsWith, List.isPrefixOf_iff_prefix] at h
    rcases h with ⟨t, ht⟩
    refine ⟨String.mk t, ?_⟩
    cases s with
    | mk sd =>
      cases p with
      | mk pd =>
        simp only [String.instAppend] at *
        exact congrArg String.mk ht.symm
  · rintro ⟨r, rfl⟩
    rw [pyStartsWith, List.isPrefixOf_iff_prefix]
    cases p with
    | mk pd =>
      cases r with
      | mk rd =>
        exact ⟨rd, rfl⟩

/-- C7: with a truthy filter value F, the category filter keeps exactly the
issues whose category equals F or whose category is F followed by a colon
and a space then anything; in particular among categories A, A: B and AB,
filtering by A keeps the first two and drops the third. -/
theorem category_filter_spec :
    (∀ (F : String) (issues : List Dict) (i : Dict), F ≠ "" →
      (i ∈ category_filter F issues ↔
        i ∈ issues ∧
          (pyGetD i "category" "" = F ∨
            ∃ rest, pyGetD i "category" "" = F ++ ": " ++ rest))) ∧
    category_filter "A"
        [[("category", "A")], [("category", "A: B")], [("category", "AB")]] =
      [[("category", "A")], [("category", "A: B")]] := by
  constructor
  · intro F issues i hF
    rw [category_filter, if_pos hF, List.mem_filter]
    constructor
    · rintro ⟨hm, hp⟩
      refine ⟨hm, ?_⟩
      rcases Bool.or_eq_true _ _ |>.mp hp with h | h
      · exact Or.inl (by simpa using h)
      · rcases (pyStartsWith_iff _ _).mp h with ⟨r, hr⟩
        exact Or.inr ⟨r, by rw [hr, String.append_assoc]⟩
    · rintro ⟨hm, hp⟩
      refine ⟨hm, ?_⟩
      rcases hp with h | ⟨r, hr⟩
      · simp [h]
      · have : pyStartsWith (pyGetD i "category" "") (F ++ ": ") = true :=
          (pyStartsWith_iff _ _).mpr ⟨r, by rw [hr, String.append_assoc]⟩
        simp [this]
  · decide

/-- Witness for category_filter_spec: membership of the A: B issue under
filter value A. -/
theorem category_filter_spec_witness :
    ("A" : String) ≠ "" ∧
    ([("category", "A: B")] ∈
        category_filter "A" [[("category", "A")], [("category", "A: B")], [("category", "AB")]] ↔
      [("category", "A: B")] ∈
          [[("category", "A")], [("category", "A: B")], [("category", "AB")]] ∧
        (pyGetD [("category", "A: B")] "category" "" = "A" ∨
          ∃ rest, pyGetD [("category", "A: B")] "category" "" = "A" ++ ": " ++ rest)) :=
  ⟨by decide, category_filter_spec.1 "A" _ _ (by decide)⟩

set_option maxRecDepth 8192 in
/-- C10: the default hospital list has 329 entries; get_hospitals never
returns fewer hospitals than that: a stored collection that is empty or
smaller than the defaults is overwritten with the defaults and the defaults
are returned, so a delete_hospital that leaves the collection below that
size is undone (the smaller stored list discarded) on the next read. -/
theorem get_hospitals_spec :
    DEFAULT_HOSPITALS.length = 329 ∧
    (∀ stored : List Hospital, 329 ≤ ((get_hospitals stored).1).length) ∧
    (∀ stored : List Hospital, stored.length < DEFAULT_HOSPITALS.length →
      get_hospitals stored = (DEFAULT_HOSPITALS, DEFAULT_HOSPITALS)) ∧
    (∀ (stored : List Hospital) (name : String),
      (delete_hospital name stored).length < DEFAULT_HOSPITALS.length →
      get_hospitals (delete_hospital name stored) = (DEFAULT_HOSPITALS, DEFAULT_HOSPITALS)) := by
  have hlen : DEFAULT_HOSPITALS.length = 329 := by decide
  refine ⟨hlen, ?_, ?_, ?_⟩
  · intro stored
    rw [get_hospitals]
    split
    · simpa using hlen.le
    · rename_i hcond
      rw [Bool.or_eq_true, not_or] at hcond
      have := hcond.2
      simp only [decide_eq_true_eq, Nat.not_lt] at this
      simpa using hlen ▸ this
  · intro stored hlt
    rw [get_hospitals, if_pos]
    simp [hlt]
  · intro stored name hlt
    rw [get_hospitals, if_pos]
    simp [hlt]

set_option maxRecDepth 8192 in
/-- Witness for get_hospitals_spec: an emptied store is restored to the
defaults on the next read. -/
theorem get_hospitals_spec_witness :
    (([] : List Hospital).length < DEFAULT_HOSPITALS.length) ∧
    get_hospitals [] = (DEFAULT_HOSPITALS, DEFAULT_HOSPITALS) :=
  ⟨by decide, get_hospitals_spec.2.2.1 [] (by decide)⟩

/-- C8: close_issue on an absent issue id aborts with a not-found notice and
no mutation; on an already-closed issue (dateClosed non-empty) it is a no-op
reported as informational; only on an existing open issue does it set
dateClosed to the current timestamp and status to Closed, persisting via
remove-then-append. -/
theorem close_issue_spec (now issue_id : String) (issues : List Dict) :
    (issues.find? (fun i => pyGet i "id" == some issue_id) = none →
      close_issue now issue_id issues = (issues, "Issue not found")) ∧
    (∀ issue, issues.find? (fun i => pyGet i "id" == some issue_id) = some issue →
      pyGetD issue "dateClosed" "" ≠ "" →
      close_issue now issue_id issues = (issues, "Issue is already closed")) ∧
    (∀ issue, issues.find? (fun i => pyGet i "id" == some issue_id) = some issue →
      pyGetD issue "dateClosed" "" = "" → issue_id ≠ "" →
      close_issue now issue_id issues =
        (issues.filter (fun i => pyGet i "id" != some issue_id) ++
          [dictSet (dictSet issue "dateClosed" now) "status" "Closed"],
         "Issue closed successfully") ∧
      pyGet (dictSet (dictSet issue "dateClosed" now) "status" "Closed") "dateClosed" =
        some now ∧
      pyGet (dictSet (dictSet issue "dateClosed" now) "status" "Closed") "status" =
        some "Closed") := by
  refine ⟨?_, ?_, ?_⟩
  · intro h
    rw [close_issue, h]
  · intro issue hfind hclosed
    rw [close_issue, hfind]
    simp only [if_pos hclosed]
  · intro issue hfind hopen hid
    have hidv : pyGet issue "id" = some issue_id := by
      have := List.find?_some hfind
      simpa using this
    have hid2 : pyGet (dictSet (dictSet issue "dateClosed" now) "status" "Closed") "id" =
        some issue_id := by
      rw [pyGet_dictSet_ne _ _ _ _ (by decide), pyGet_dictSet_ne _ _ _ _ (by decide)]
      exact hidv
    have hidv2 : pyGetD (dictSet (dictSet issue "dateClosed" now) "status" "Closed") "id" "" =
        issue_id := by
      rw [pyGetD, hid2]
      rfl
    refine ⟨?_, ?_, pyGet_dictSet_self _ _ _⟩
    · rw [close_issue, hfind]
      dsimp only
      rw [if_neg (by rw [hopen]; simp)]
      rw [save_issue]
      dsimp only
      rw [hidv2, if_pos hid]
    · rw [pyGet_dictSet_ne _ _ _ _ (by decide)]
      exact pyGet_dictSet_self _ _ _

/-- Witness for close_issue_spec: closing the open issue 1 stamps it closed
and appends it after the untouched issue 2. -/
theorem close_issue_spec_witness :
    ([[("id", "1"), ("dateClosed", ""), ("status", "Open")],
        [("id", "2"), ("dateClosed", ""), ("status", "Open")]].find?
        (fun i => pyGet i "id" == some "1") =
      some [("id", "1"), ("dateClosed", ""), ("status", "Open")]) ∧
    close_issue "2024-05-01T10:00:00" "1"
        [[("id", "1"), ("dateClosed", ""), ("status", "Open")],
          [("id", "2"), ("dateClosed", ""), ("status", "Open")]] =
      ([[("id", "2"), ("dateClosed", ""), ("status", "Open")],
          [("id", "1"), ("dateClosed", "2024-05-01T10:00:00"), ("status", "Closed")]],
        "Issue closed successfully") := by
  refine ⟨by decide, ?_⟩
  have h := (close_issue_spec "2024-05-01T10:00:00" "1"
      [[("id", "1"), ("dateClosed", ""), ("status", "Open")],
        [("id", "2"), ("dateClosed", ""), ("status", "Open")]]).2.2
      [("id", "1"), ("dateClosed", ""), ("status", "Open")]
      (by decide) (by decide) (by decide)
  rw [h.1]
  decide

/-- The update branch of create_or_update_user, as one equation. -/
theorem create_or_update_user_existing (d : Dict) (users : List Dict) (ex : Dict)
    (hex : get_user_by_email users (pyGetD d "email" "") = some ex) :
    (create_or_update_user d users).2 =
      users.filter (fun u => pyGet u "email" != some (pyGetD d "email" "")) ++
        [dictSet d "id" (pyGetD ex "id" "")] := by
  rw [create_or_update_user]
  dsimp only
  rw [hex]

/-- C5: an upsert whose record key matches an existing record keeps the
existing id and lands at the last position of the collection, the other
records kept unchanged and in order (remove-by-key-then-append): save_issue
with a truthy id, and create_or_update_user with an existing email. -/
theorem upsert_update_spec :
    (∀ (issue : Dict) (issues : List Dict) (s : String),
      pyGet issue "id" = some s → s ≠ "" →
      (save_issue issue issues).2 =
        issues.filter (fun i => pyGet i "id" != some s) ++ [issue] ∧
      List.Sublist (issues.filter (fun i => pyGet i "id" != some s)) issues ∧
      ((save_issue issue issues).2).getLast? = some issue) ∧
    (∀ (d : Dict) (users : List Dict) (ex : Dict) (idv : String),
      get_user_by_email users (pyGetD d "email" "") = some ex →
      pyGet ex "id" = some idv →
      (create_or_update_user d users).2 =
        users.filter (fun u => pyGet u "email" != some (pyGetD d "email" "")) ++
          [dictSet d "id" idv] ∧
      pyGet (dictSet d "id" idv) "id" = some idv ∧
      List.Sublist (users.filter (fun u => pyGet u "email" != some (pyGetD d "email" ""))) users ∧
      ((create_or_update_user d users).2).getLast? = some (dictSet d "id" idv)) := by
  constructor
  · intro issue issues s hs hs0
    have hsd : pyGetD issue "id" "" = s := by rw [pyGetD, hs]; rfl
    have heq : (save_issue issue issues).2 =
        issues.filter (fun i => pyGet i "id" != some s) ++ [issue] := by
      rw [save_issue]
      dsimp only
      rw [hsd, if_pos hs0]
    refine ⟨heq, List.filter_sublist _, ?_⟩
    rw [heq]
    exact List.getLast?_concat _
  · intro d users ex idv hex hid
    have hidd : pyGetD ex "id" "" = idv := by rw [pyGetD, hid]; rfl
    have heq := create_or_update_user_existing d users ex hex
    rw [hidd] at heq
    refine ⟨heq, pyGet_dictSet_self _ _ _, List.filter_sublist _, ?_⟩
    rw [heq]
    exact List.getLast?_concat _

/-- Witness for upsert_update_spec: updating issue 1 among two issues moves
it to the end with its id kept, and updating the only user by email keeps
the stored id 7 over the incoming record. -/
theorem upsert_update_spec_witness :
    (save_issue [("id", "1"), ("status", "Closed")]
        [[("id", "1"), ("status", "Open")], [("id", "2"), ("status", "Open")]]).2 =
      [[("id", "2"), ("status", "Open")], [("id", "1"), ("status", "Closed")]] ∧
    (create_or_update_user [("email", "a@x.com"), ("name", "A2")]
        [[("id", "7"), ("email", "a@x.com"), ("name", "A1")]]).2 =
      [[("email", "a@x.com"), ("name", "A2"), ("id", "7")]] := by
  constructor
  · have h := (upsert_update_spec.1 [("id", "1"), ("status", "Closed")]
        [[("id", "1"), ("status", "Open")], [("id", "2"), ("status", "Open")]] "1"
        (by decide) (by decide)).1
    rw [h]
    decide
  · have h := (upsert_update_spec.2 [("email", "a@x.com"), ("name", "A2")]
        [[("id", "7"), ("email", "a@x.com"), ("name", "A1")]]
        [("id", "7"), ("email", "a@x.com"), ("name", "A1")] "7"
        (by decide) (by decide)).1
    rw [h]
    decide

/-- The create branch of create_or_update_user, as one equation. -/
theorem create_or_update_user_new (d : Dict) (users : List Dict)
    (hnone : get_user_by_email users (pyGetD d "email" "") = none) :
    (create_or_update_user d users).2 =
      users ++
        [dictSet (dictSet d "id" (toString (get_next_id users "id"))) "role"
          (pyGetD (dictSet d "id" (toString (get_next_id users "id"))) "role" "member")] := by
  rw [create_or_update_user]
  dsimp only
  rw [hnone]

/-- Absence characterization of the exact-match email lookup. -/
theorem get_user_by_email_eq_none (users : List Dict) (e : String) :
    get_user_by_email users e = none ↔ ∀ u ∈ users, pyGet u "email" ≠ some e := by
  rw [get_user_by_email, List.find?_eq_none]
  constructor
  · intro h u hu
    simpa using h u hu
  · intro h u hu
    simpa using h u hu

/-- Removing the exact-email matches from a duplicate-free collection that
contains one drops exactly one record. -/
theorem filter_ne_email_length (users : List Dict) (e : String) (ex : Dict)
    (hnd : (users.map (fun u => pyGet u "email")).Nodup)
    (hmem : ex ∈ users) (hee : pyGet ex "email" = some e) :
    (users.filter (fun u => pyGet u "email" != some e)).length + 1 = users.length := by
  induction users with
  | nil => simp at hmem
  | cons u t ih =>
    rw [List.map_cons, List.nodup_cons] at hnd
    rcases List.mem_cons.mp hmem with rfl | hmt
    · rw [List.filter_cons_of_neg (by simp [hee])]
      have hall : t.filter (fun v => pyGet v "email" != some e) = t := by
        rw [List.filter_eq_self]
        intro v hv
        have hne : pyGet v "email" ≠ some e := by
          intro hc
          exact hnd.1 (hee ▸ hc ▸ List.mem_map.mpr ⟨v, hv, rfl⟩)
        simpa using hne
      rw [hall]
      simp
    · have hu_ne : pyGet u "email" ≠ some e := by
        intro hc
        have : some e ∈ t.map (fun v => pyGet v "email") :=
          List.mem_map.mpr ⟨ex, hmt, hee⟩
        rw [← hc] at this
        exact hnd.1 this
      rw [List.filter_cons_of_pos (by simpa using hu_ne)]
      have := ih hnd.2 hmt
      simp only [List.length_cons]
      omega

/-- C3 counterexample: the users functions match emails case-sensitively,
not case-insensitively.  A stored record with email A@x.com is not found
when looked up as a@x.com, and create_or_update_user with the lower-cased
email appends a second record, so two records share one normalized email. -/
theorem user_email_case_counterexample :
    pyLower (pyGetD [("id", "1"), ("email", "A@x.com"), ("name", "A"), ("role", "member")]
        "email" "") = pyLower "a@x.com" ∧
    get_user_by_email [[("id", "1"), ("email", "A@x.com"), ("name", "A"), ("role", "member")]]
        "a@x.com" = none ∧
    ((create_or_update_user [("email", "a@x.com"), ("name", "a"), ("role", "member")]
        [[("id", "1"), ("email", "A@x.com"), ("name", "A"), ("role", "member")]]).2).length = 2 ∧
    ((create_or_update_user [("email", "a@x.com"), ("name", "a"), ("role", "member")]
        [[("id", "1"), ("email", "A@x.com"), ("name", "A"), ("role", "member")]]).2).countP
        (fun u => pyLower (pyGetD u "email" "") == "a@x.com") = 2 := by
  decide

/-- C3 amended: uniqueness and in-place update hold for exact (case
sensitive) emails: lookup misses exactly when no record carries the exact
email; create_or_update_user preserves at-most-one-record-per-exact-email;
and an update through an existing exact email keeps the collection size and
carries the stored id over to the updated record, which lands at the end. -/
theorem users_exact_email_spec :
    (∀ (users : List Dict) (e : String),
      get_user_by_email users e = none ↔ ∀ u ∈ users, pyGet u "email" ≠ some e) ∧
    (∀ (d : Dict) (users : List Dict) (e : String),
      pyGet d "email" = some e →
      (users.map (fun u => pyGet u "email")).Nodup →
      (((create_or_update_user d users).2).map (fun u => pyGet u "email")).Nodup) ∧
    (∀ (d : Dict) (users : List Dict) (e : String) (ex : Dict) (idv : String),
      pyGet d "email" = some e →
      (users.map (fun u => pyGet u "email")).Nodup →
      get_user_by_email users e = some ex →
      pyGet ex "id" = some idv →
      ((create_or_update_user d users).2).length = users.length ∧
      ((create_or_update_user d users).2).getLast? = some (dictSet d "id" idv) ∧
      pyGet (dictSet d "id" idv) "id" = some idv) := by
  refine ⟨get_user_by_email_eq_none, ?_, ?_⟩
  · intro d users e hde hnd
    have hd : pyGetD d "email" "" = e := by rw [pyGetD, hde]; rfl
    cases hm : get_user_by_email users e with
    | some ex =>
      have heq := create_or_update_user_existing d users ex (by rw [hd]; exact hm)
      rw [hd] at heq
      rw [heq, List.map_append, List.nodup_append]
      refine ⟨hnd.sublist ((List.filter_sublist _).map _), by simp, ?_⟩
      intro x hx hy
      rcases List.mem_map.mp hx with ⟨u, hu, rfl⟩
      have hpred := List.of_mem_filter hu
      have hne : pyGet u "email" ≠ some e := by simpa using hpred
      simp only [List.map_cons, List.map_nil, List.mem_singleton] at hy
      rw [pyGet_dictSet_ne _ _ _ _ (by decide), hde] at hy
      exact hne hy
    | none =>
      have heq := create_or_update_user_new d users (by rw [hd]; exact hm)
      rw [heq, List.map_append, List.nodup_append]
      have hmail : pyGet (dictSet (dictSet d "id" (toString (get_next_id users "id"))) "role"
          (pyGetD (dictSet d "id" (toString (get_next_id users "id"))) "role" "member"))
          "email" = some e := by
        rw [pyGet_dictSet_ne _ _ _ _ (by decide), pyGet_dictSet_ne _ _ _ _ (by decide), hde]
      refine ⟨hnd, by simp, ?_⟩
      intro x hx hy
      simp only [List.map_cons, List.map_nil, List.mem_singleton] at hy
      rcases List.mem_map.mp hx with ⟨u, hu, rfl⟩
      have := (get_user_by_email_eq_none users e).mp hm u hu
      rw [hy, hmail] at this
      exact this rfl
  · intro d users e ex idv hde hnd hm hid
    have hd : pyGetD d "email" "" = e := by rw [pyGetD, hde]; rfl
    have hidd : pyGetD ex "id" "" = idv := by rw [pyGetD, hid]; rfl
    have heq := create_or_update_user_existing d users ex (by rw [hd]; exact hm)
    rw [hd, hidd] at heq
    have hmem : ex ∈ users := List.mem_of_find?_eq_some hm
    have hee : pyGet ex "email" = some e := by
      have := List.find?_some hm
      simpa using this
    refine ⟨?_, ?_, pyGet_dictSet_self _ _ _⟩
    · rw [heq, List.length_append]
      have := filter_ne_email_length users e ex hnd hmem hee
      simpa using this
    · rw [heq]
      exact List.getLast?_concat _

/-- Witness for users_exact_email_spec: an exact-email update of a
one-record collection keeps its length 1 and the stored id 7. -/
theorem users_exact_email_spec_witness :
    ((create_or_update_user [("email", "b@x.com"), ("name", "B2")]
        [[("id", "7"), ("email", "b@x.com"), ("name", "B1")]]).2).length = 1 ∧
    ((create_or_update_user [("email", "b@x.com"), ("name", "B2")]
        [[("id", "7"), ("email", "b@x.com"), ("name", "B1")]]).2).getLast? =
      some (dictSet [("email", "b@x.com"), ("name", "B2")] "id" "7") :=
  ⟨((users_exact_email_spec.2.2 [("email", "b@x.com"), ("name", "B2")]
      [[("id", "7"), ("email", "b@x.com"), ("name", "B1")]] "b@x.com"
      [("id", "7"), ("email", "b@x.com"), ("name", "B1")] "7"
      (by decide) (by decide) (by decide) (by decide)).1),
    ((users_exact_email_spec.2.2 [("email", "b@x.com"), ("name", "B2")]
      [[("id", "7"), ("email", "b@x.com"), ("name", "B1")]] "b@x.com"
      [("id", "7"), ("email", "b@x.com"), ("name", "B1")] "7"
      (by decide) (by decide) (by decide) (by decide)).2.1)⟩

/-- C9 counterexample: the round-trip does not reproduce a record that uses
only schema fields but omits one of them: the omitted field comes back as
the empty string (restval), which is a different dict. -/
theorem csv_roundtrip_counterexample :
    (∀ p ∈ ([("id", "1")] : Dict), p.1 ∈ ["id", "email"]) ∧
    read_csv (write_csv [[("id", "1")]] ["id", "email"]) =
      [[("id", "1"), ("email", "")]] ∧
    read_csv (write_csv [[("id", "1")]] ["id", "email"]) ≠ [[("id", "1")]] ∧
    pyGet [("id", "1"), ("email", "")] "email" = some "" ∧
    pyGet [("id", "1")] "email" = none := by
  refine ⟨by decide, by decide, by decide, by decide, by decide⟩

/-- C9 amended: decoding the output of encoding yields, for each record in
order, its restriction to the schema with missing schema fields filled by
the empty string; hence fields outside the schema are dropped, and a record
carrying exactly the schema fields round-trips to an equivalent dict
(pointwise equal lookups). -/
theorem csv_roundtrip_spec :
    (∀ (headers : List String) (data : List Dict),
      read_csv (write_csv data headers) =
        data.map (fun r => headers.map (fun h => (h, (pyGet r h).getD "")))) ∧
    (∀ (headers : List String) (r : Dict),
      (∀ p ∈ r, p.1 ∈ headers) →
      (∀ h ∈ headers, (pyGet r h).isSome) →
      ∀ k, pyGet (headers.map (fun h => (h, (pyGet r h).getD ""))) k = pyGet r k) := by
  constructor
  · intro headers data
    rw [read_csv, write_csv]
    dsimp only
    rw [List.map_map]
    apply List.map_congr_left
    intro r _
    dsimp only [Function.comp]
    induction headers with
    | nil => rfl
    | cons h t ih =>
      rw [List.map_cons, List.map_cons, List.zip_cons_cons, ih]
  · intro headers r hsub hsome k
    rw [pyGet_map_pair]
    by_cases hk : k ∈ headers
    · rw [if_pos hk]
      rcases Option.isSome_iff_exists.mp (hsome k hk) with ⟨v, hv⟩
      rw [hv]
      rfl
    · rw [if_neg hk]
      cases hv : pyGet r k with
      | none => rfl
      | some v =>
        exact absurd (hsub (k, v) (pyGet_eq_some_mem hv)) hk

/-- Witness for csv_roundtrip_spec: a full-schema record round-trips to a
dict with identical lookups at every key, shown here at the keys id, email
and a key outside the schema. -/
theorem csv_roundtrip_spec_witness :
    (∀ p ∈ ([("id", "1"), ("email", "a@x.com")] : Dict), p.1 ∈ ["id", "email"]) ∧
    (pyGet (["id", "email"].map
        (fun h => (h, (pyGet [("id", "1"), ("email", "a@x.com")] h).getD ""))) "email" =
      pyGet [("id", "1"), ("email", "a@x.com")] "email") :=
  ⟨by decide,
    csv_roundtrip_spec.2 ["id", "email"] [("id", "1"), ("email", "a@x.com")]
      (by decide) (by decide) "email"⟩

/-- Evaluation of refresh_user_role for a session with a present id and a
truthy email. -/
theorem refresh_user_role_truthy (adminUsers : List String) (sess : Session)
    (users : List Dict) (e : String)
    (hsid : sess.userId.isSome = true) (hse : sess.userEmail = some e) (he : e ≠ "") :
    refresh_user_role adminUsers sess users =
      (if is_admin adminUsers e then
        match get_user_by_email users e with
        | some u =>
          ({ sess with userRole := some "admin" },
            if pyGet u "role" != some "admin" then
              (create_or_update_user (dictSet u "role" "admin") users).2
            else users)
        | none => (sess, users)
      else
        match get_user_by_email users e with
        | some u => ({ sess with userRole := some (pyGetD u "role" "member") }, users)
        | none => (sess, users)) := by
  rw [refresh_user_role, hse]
  rw [if_pos (by rw [hsid]; rfl)]
  dsimp only
  rw [if_pos (by simp [truthyO, he])]
  dsimp only
  rw [if_pos he, hse]

/-- C1 counterexample: a stored admin whose email is not in the allow-list
is not demoted: the resolver leaves the stored record untouched and sets the
session (effective) role to the stored role admin, not member. -/
theorem refresh_user_role_counterexample :
    is_admin ADMIN_USERS "bob@cloudphysician.net" = false ∧
    pyGet [("id", "1"), ("email", "bob@cloudphysician.net"), ("name", "bob"),
        ("role", "admin")] "role" = some "admin" ∧
    (refresh_user_role ADMIN_USERS
        ⟨some "1", some "bob@cloudphysician.net", some "admin"⟩
        [[("id", "1"), ("email", "bob@cloudphysician.net"), ("name", "bob"),
          ("role", "admin")]]).2 =
      [[("id", "1"), ("email", "bob@cloudphysician.net"), ("name", "bob"),
        ("role", "admin")]] ∧
    (refresh_user_role ADMIN_USERS
        ⟨some "1", some "bob@cloudphysician.net", some "admin"⟩
        [[("id", "1"), ("email", "bob@cloudphysician.net"), ("name", "bob"),
          ("role", "admin")]]).1.userRole = some "admin" := by
  decide

/-- C1 amended: promotion holds as claimed: an allow-listed email whose
stored role is not admin gets role admin persisted (id kept, record moved
to the end) and session role admin.  Demotion does not: for an email not in
the allow-list the stored collection is returned unchanged and the session
role is set to the stored record's role, whatever it is. -/
theorem refresh_user_role_spec :
    (∀ (adminUsers : List String) (sess : Session) (users : List Dict) (e : String)
        (u : Dict) (idv : String),
      sess.userId.isSome = true →
      sess.userEmail = some e → e ≠ "" →
      is_admin adminUsers e = true →
      get_user_by_email users e = some u →
      pyGet u "role" ≠ some "admin" →
      pyGet u "id" = some idv →
      (refresh_user_role adminUsers sess users).1.userRole = some "admin" ∧
      (refresh_user_role adminUsers sess users).2 =
        users.filter (fun x => pyGet x "email" != some e) ++
          [dictSet (dictSet u "role" "admin") "id" idv] ∧
      pyGet (dictSet (dictSet u "role" "admin") "id" idv) "role" = some "admin" ∧
      pyGet (dictSet (dictSet u "role" "admin") "id" idv) "id" = some idv ∧
      pyGet (dictSet (dictSet u "role" "admin") "id" idv) "email" = some e) ∧
    (∀ (adminUsers : List String) (sess : Session) (users : List Dict) (e : String)
        (u : Dict),
      sess.userId.isSome = true →
      sess.userEmail = some e → e ≠ "" →
      is_admin adminUsers e = false →
      get_user_by_email users e = some u →
      (refresh_user_role adminUsers sess users).2 = users ∧
      (refresh_user_role adminUsers sess users).1.userRole =
        some (pyGetD u "role" "member")) := by
  constructor
  · intro adminUsers sess users e u idv hsid hse he hadm hm hne hid
    have hue : pyGet u "email" = some e := by simpa using List.find?_some hm
    have hde : pyGet (dictSet u "role" "admin") "email" = some e := by
      rw [pyGet_dictSet_ne _ _ _ _ (by decide)]
      exact hue
    have hd : pyGetD (dictSet u "role" "admin") "email" "" = e := by
      rw [pyGetD, hde]
      rfl
    have hidd : pyGetD u "id" "" = idv := by rw [pyGetD, hid]; rfl
    have heq := create_or_update_user_existing (dictSet u "role" "admin") users u
      (by rw [hd]; exact hm)
    rw [hd, hidd] at heq
    have hb : (pyGet u "role" != some "admin") = true := by simpa using hne
    have hrw := refresh_user_role_truthy adminUsers sess users e hsid hse he
    rw [hadm] at hrw
    rw [if_pos rfl, hm] at hrw
    dsimp only at hrw
    rw [hb, if_pos rfl] at hrw
    rw [hrw]
    refine ⟨rfl, heq, ?_, pyGet_dictSet_self _ _ _, ?_⟩
    · rw [pyGet_dictSet_ne _ _ _ _ (by decide)]
      exact pyGet_dictSet_self _ _ _
    · rw [pyGet_dictSet_ne _ _ _ _ (by decide)]
      exact hde
  · intro adminUsers sess users e u hsid hse he hadm hm
    have hrw := refresh_user_role_truthy adminUsers sess users e hsid hse he
    rw [hadm] at hrw
    rw [if_neg (by simp), hm] at hrw
    dsimp only at hrw
    rw [hrw]
    exact ⟨rfl, rfl⟩

/-- Witness for refresh_user_role_spec: promoting the allow-listed stored
member, and leaving the non-allow-listed stored admin untouched. -/
theorem refresh_user_role_spec_witness :
    (refresh_user_role ["root@x.com"] ⟨some "1", some "root@x.com", none⟩
        [[("id", "1"), ("email", "root@x.com"), ("role", "member")]]).2 =
      [[("id", "1"), ("email", "root@x.com"), ("role", "member")]].filter
          (fun x => pyGet x "email" != some "root@x.com") ++
        [dictSet (dictSet [("id", "1"), ("email", "root@x.com"), ("role", "member")]
          "role" "admin") "id" "1"] ∧
    (refresh_user_role ["root@x.com"] ⟨some "2", some "bob@x.com", none⟩
        [[("id", "2"), ("email", "bob@x.com"), ("role", "admin")]]).2 =
      [[("id", "2"), ("email", "bob@x.com"), ("role", "admin")]] :=
  ⟨(refresh_user_role_spec.1 ["root@x.com"] ⟨some "1", some "root@x.com", none⟩
      [[("id", "1"), ("email", "root@x.com"), ("role", "member")]] "root@x.com"
      [("id", "1"), ("email", "root@x.com"), ("role", "member")] "1"
      (by decide) (by decide) (by decide) (by decide) (by decide) (by decide)
      (by decide)).2.1,
    (refresh_user_role_spec.2 ["root@x.com"] ⟨some "2", some "bob@x.com", none⟩
      [[("id", "2"), ("email", "bob@x.com"), ("role", "admin")]] "bob@x.com"
      [("id", "2"), ("email", "bob@x.com"), ("role", "admin")]
      (by decide) (by decide) (by decide) (by decide) (by decide)).1⟩

/-- A conditional filter stage only ever drops records. -/
theorem ite_filter_sublist (c : Prop) [Decidable c] (l : List Dict) (p : Dict → Bool) :
    List.Sublist (if c then l.filter p else l) l := by
  split
  · exact List.filter_sublist _
  · exact List.Sublist.refl _

/-- The my_tasks stage only ever drops records. -/
theorem my_tasks_stage_sublist (b : Bool) (n : String) (l : List Dict) :
    List.Sublist (if b then my_tasks_filter n l else l) l := by
  cases b
  · exact List.Sublist.refl _
  · rw [if_pos rfl, my_tasks_filter]
    exact List.filter_sublist _

/-- The category stage only ever drops records. -/
theorem category_filter_sublist (c : String) (l : List Dict) :
    List.Sublist (category_filter c l) l := by
  rw [category_filter]
  split
  · exact List.filter_sublist _
  · exact List.Sublist.refl _

/-- The search stage only ever drops records. -/
theorem search_filter_sublist (s : String) (l : List Dict) :
    List.Sublist (search_filter s l) l := by
  rw [search_filter]
  split
  · exact List.filter_sublist _
  · exact List.Sublist.refl _

/-- The whole /issues filter chain yields a sublist of the collection. -/
theorem issues_filtered_sublist (a : IssuesArgs) (all : List Dict) :
    List.Sublist (issues_filtered a all) all := by
  rw [issues_filtered]
  exact (search_filter_sublist _ _).trans ((ite_filter_sublist _ _ _).trans
    ((ite_filter_sublist _ _ _).trans ((ite_filter_sublist _ _ _).trans
      ((ite_filter_sublist _ _ _).trans ((category_filter_sublist _ _).trans
        (my_tasks_stage_sublist _ _ _))))))

/-- A record whose id no update touches survives the batch rewrite. -/
theorem batch_update_preserve (upds : List Dict) (acc : List Dict) (r : Dict)
    (hr : r ∈ acc) (hno : ∀ u ∈ upds, pyGet u "id" ≠ pyGet r "id") :
    r ∈ batch_update acc upds := by
  induction upds generalizing acc with
  | nil => exact hr
  | cons u t ih =>
    rw [batch_update] at *
    rw [List.foldl_cons]
    refine ih _ ?_ (fun w hw => hno w (List.mem_cons_of_mem _ hw))
    refine List.mem_append_left _ (List.mem_filter.mpr ⟨hr, ?_⟩)
    simpa using fun hc => hno u (List.mem_cons_self _ _) hc.symm

/-- Every record of the batch rewrite carrying an id no update touches was
already stored. -/
theorem batch_update_no_new (t : List Dict) (acc : List Dict) (x : Option String)
    (hno : ∀ w ∈ t, pyGet w "id" ≠ x) :
    ∀ r ∈ batch_update acc t, pyGet r "id" = x → r ∈ acc := by
  induction t generalizing acc with
  | nil =>
    intro r hr _
    exact hr
  | cons w t2 ih =>
    intro r hr hx
    rw [batch_update, List.foldl_cons] at hr
    have hr2 := ih _ (fun v hv => hno v (List.mem_cons_of_mem _ hv)) r hr hx
    rcases List.mem_append.mp hr2 with h | h
    · exact List.mem_of_mem_filter h
    · rw [List.mem_singleton] at h
      subst h
      exact absurd hx (hno r (List.mem_cons_self _ _))

/-- When the updates carry pairwise distinct ids, each of them appears in
the rewritten collection. -/
theorem batch_update_mem (upds : List Dict) (acc : List Dict) (u : Dict)
    (hu : u ∈ upds) (hnd : (upds.map (fun x => pyGet x "id")).Nodup) :
    u ∈ batch_update acc upds := by
  induction upds generalizing acc with
  | nil => simp at hu
  | cons v t ih =>
    rw [List.map_cons, List.nodup_cons] at hnd
    rw [batch_update, List.foldl_cons]
    rcases List.mem_cons.mp hu with rfl | hut
    · refine batch_update_preserve t _ u ?_ ?_
      · exact List.mem_append_right _ (List.mem_singleton.mpr rfl)
      · intro w hw hc
        exact hnd.1 (hc ▸ List.mem_map.mpr ⟨w, hw, rfl⟩)
    · exact ih _ hut hnd.2

/-- When the updates carry pairwise distinct ids, an update's id identifies
it uniquely in the rewritten collection. -/
theorem batch_update_unique (upds : List Dict) (acc : List Dict) (u : Dict)
    (hu : u ∈ upds) (hnd : (upds.map (fun x => pyGet x "id")).Nodup) :
    ∀ r ∈ batch_update acc upds, pyGet r "id" = pyGet u "id" → r = u := by
  induction upds generalizing acc with
  | nil => simp at hu
  | cons v t ih =>
    rw [List.map_cons, List.nodup_cons] at hnd
    intro r hr hx
    rw [batch_update, List.foldl_cons] at hr
    rcases List.mem_cons.mp hu with rfl | hut
    · have hno : ∀ w ∈ t, pyGet w "id" ≠ pyGet u "id" := by
        intro w hw hc
        exact hnd.1 (hc ▸ List.mem_map.mpr ⟨w, hw, rfl⟩)
      have hr2 := batch_update_no_new t _ (pyGet u "id") hno r (by rw [batch_update]; exact hr) hx
      rcases List.mem_append.mp hr2 with h | h
      · have := List.of_mem_filter h
        rw [hx] at this
        simp at this
      · exact List.mem_singleton.mp h
    · exact ih _ hut hnd.2 r hr hx

/-- The status-sync correction leaves the id field unchanged. -/
theorem sync_status_id (i : Dict) : pyGet (sync_status i) "id" = pyGet i "id" :=
  pyGet_dictSet_ne _ _ _ _ (by decide)

/-- C2 counterexample: an issue with dateClosed set and status Open is not
corrected by a listing whose status filter excludes it: the stored record
keeps status Open after the listing. -/
theorem issues_listing_counterexample :
    needs_status_sync [("id", "1"), ("status", "Open"),
        ("dateClosed", "2024-01-02T00:00:00")] = true ∧
    pyGet [("id", "1"), ("status", "Open"), ("dateClosed", "2024-01-02T00:00:00")]
        "status" = some "Open" ∧
    issues_filtered ⟨false, "", "", "", "", "Closed", "", ""⟩
        [[("id", "1"), ("status", "Open"), ("dateClosed", "2024-01-02T00:00:00")]] = [] ∧
    (∀ result,
      IssuesListing ⟨false, "", "", "", "", "Closed", "", ""⟩
          [[("id", "1"), ("status", "Open"), ("dateClosed", "2024-01-02T00:00:00")]]
          result →
      result = [[("id", "1"), ("status", "Open"), ("dateClosed", "2024-01-02T00:00:00")]]) := by
  refine ⟨by decide, by decide, by decide, ?_⟩
  rintro result ⟨sorted, hperm, rfl⟩
  have h : issues_filtered ⟨false, "", "", "", "", "Closed", "", ""⟩
      [[("id", "1"), ("status", "Open"), ("dateClosed", "2024-01-02T00:00:00")]] = [] := by
    decide
  rw [h] at hperm
  have hs : sorted = [] := hperm.eq_nil
  subst hs
  rfl

/-- C2 amended: the status-sync persists Closed for exactly the issues that
pass the active filters: if a stored issue (in a collection with distinct
ids) has dateClosed set, status not Closed, and survives the filter chain,
then after the listing the collection holds its corrected copy with status
Closed, and any stored record with its id is that corrected copy.  An issue
filtered out is not rewritten (see the counterexample). -/
theorem issues_listing_sync_spec :
    (∀ i : Dict, pyGet (sync_status i) "status" = some "Closed") ∧
    (∀ (a : IssuesArgs) (all result : List Dict) (i : Dict),
      (all.map (fun r => pyGet r "id")).Nodup →
      i ∈ issues_filtered a all →
      needs_status_sync i = true →
      IssuesListing a all result →
      sync_status i ∈ result ∧
      ∀ r ∈ result, pyGet r "id" = pyGet i "id" → r = sync_status i) := by
  constructor
  · intro i
    exact pyGet_dictSet_self _ _ _
  · rintro a all result i hnd hmem hsync ⟨sorted, hperm, rfl⟩
    rw [issues_listing_store]
    have hmem_sorted : i ∈ sorted := hperm.mem_iff.mpr hmem
    have hufilter : i ∈ sorted.filter needs_status_sync :=
      List.mem_filter.mpr ⟨hmem_sorted, hsync⟩
    have hu : sync_status i ∈ (sorted.filter needs_status_sync).map sync_status :=
      List.mem_map.mpr ⟨i, hufilter, rfl⟩
    have hnd_upds :
        (((sorted.filter needs_status_sync).map sync_status).map
          (fun x => pyGet x "id")).Nodup := by
      rw [List.map_map]
      have hcongr : ((sorted.filter needs_status_sync).map
            ((fun x => pyGet x "id") ∘ sync_status)) =
          ((sorted.filter needs_status_sync).map (fun x => pyGet x "id")) :=
        List.map_congr_left (fun x _ => sync_status_id x)
      rw [hcongr]
      have h1 : ((issues_filtered a all).map (fun r => pyGet r "id")).Nodup :=
        hnd.sublist ((issues_filtered_sublist a all).map _)
      have h2 : (sorted.map (fun r => pyGet r "id")).Nodup :=
        ((hperm.map _).nodup_iff).mpr h1
      exact h2.sublist ((List.filter_sublist _).map _)
    refine ⟨batch_update_mem _ all _ hu hnd_upds, ?_⟩
    intro r hr hid
    refine batch_update_unique _ all _ hu hnd_upds r hr ?_
    rw [sync_status_id]
    exact hid

/-- Witness for issues_listing_sync_spec: a filterless listing of one open
but date-closed issue persists its corrected copy. -/
theorem issues_listing_sync_spec_witness :
    sync_status [("id", "1"), ("status", "Open"), ("dateClosed", "2024-01-02T00:00:00")] ∈
      issues_listing_store
        [[("id", "1"), ("status", "Open"), ("dateClosed", "2024-01-02T00:00:00")]]
        [[("id", "1"), ("status", "Open"), ("dateClosed", "2024-01-02T00:00:00")]] :=
  (issues_listing_sync_spec.2 ⟨false, "", "", "", "", "", "", ""⟩
    [[("id", "1"), ("status", "Open"), ("dateClosed", "2024-01-02T00:00:00")]]
    (issues_listing_store
      [[("id", "1"), ("status", "Open"), ("dateClosed", "2024-01-02T00:00:00")]]
      [[("id", "1"), ("status", "Open"), ("dateClosed", "2024-01-02T00:00:00")]])
    [("id", "1"), ("status", "Open"), ("dateClosed", "2024-01-02T00:00:00")]
    (by decide) (by decide) (by decide)
    ⟨[[("id", "1"), ("status", "Open"), ("dateClosed", "2024-01-02T00:00:00")]],
      by decide, rfl⟩).1

/-- A dict built by zipping a header row has no key outside the headers. -/
theorem pyGet_zip_not_mem (headers : List String) (row : List String) (k : String)
    (hk : k ∉ headers) : pyGet (headers.zip row) k = none := by
  induction headers generalizing row with
  | nil => simp [pyGet]
  | cons h t ih =>
    cases row with
    | nil => simp [pyGet]
    | cons v vr =>
      rw [List.zip_cons_cons, pyGet_cons]
      rw [List.mem_cons, not_or] at hk
      rw [if_neg (by simpa using Ne.symm hk.1)]
      exact ih vr hk.2

/-- An issue without a time_started field never yields a parsed start time. -/
theorem dashboard_issue_times_no_start (parse : String → Option Int) (issue : Dict)
    (h : pyGet issue "time_started" = none) :
    (dashboard_issue_times parse issue).1 = none := by
  rw [dashboard_issue_times]
  have hraw : pyGetD issue "time_started" "" = "" := by rw [pyGetD, h]; rfl
  rw [hraw]
  split
  · rfl
  · split
    · rfl
    · simp

/-- An issue without a time_started field contributes nothing to the
resolution-time accumulator. -/
theorem dashboard_resolution_step_no_start (parse : String → Option Int)
    (tc : Int × Nat) (issue : Dict) (h : pyGet issue "time_started" = none) :
    dashboard_resolution_step parse tc issue = tc := by
  rw [dashboard_resolution_step]
  cases hc : (dashboard_issue_times parse issue).2 with
  | none => rfl
  | some closed =>
    rw [dashboard_issue_times_no_start parse issue h]

/-- Over issues all lacking time_started, the accumulator fold is the
identity. -/
theorem dashboard_fold_no_start (parse : String → Option Int) (issues : List Dict)
    (h : ∀ i ∈ issues, pyGet i "time_started" = none) :
    ∀ tc : Int × Nat, issues.foldl (dashboard_resolution_step parse) tc = tc := by
  induction issues with
  | nil =>
    intro tc
    rfl
  | cons j t ih =>
    intro tc
    rw [List.foldl_cons,
      dashboard_resolution_step_no_start parse tc j (h j (List.mem_cons_self _ _))]
    exact ih (fun i hi => h i (List.mem_cons_of_mem _ hi)) tc

/-- C6: code bug.  The dashboard takes the creation time from the
time_started field, which is outside the issues.csv schema (creation time
is stored under dateLogged), so every issue read back from the store lacks
it, no issue is ever counted and avgResolutionTime is constantly 0 — for
any parser.  On two stored issues closed exactly 3 and 4 whole days after
creation the program reports 0 where the claim requires the rounded mean
3.5. -/
theorem dashboard_resolution_dead_field :
    "time_started" ∉ ISSUES_HEADERS ∧
    (∀ (data : List Dict) (i : Dict), i ∈ read_csv (write_csv data ISSUES_HEADERS) →
      pyGet i "time_started" = none) ∧
    (∀ (parse : String → Option Int) (issues : List Dict),
      (∀ i ∈ issues, pyGet i "time_started" = none) →
      dashboard_resolution parse issues = 0) ∧
    (∀ parse : String → Option Int,
      dashboard_resolution parse
        (read_csv (write_csv [issue_closed_3_days, issue_closed_4_days]
          ISSUES_HEADERS)) = 0) ∧
    Int.fdiv ((iso_epoch_parse (pyGetD issue_closed_3_days "dateClosed" "")).getD 0 -
      (iso_epoch_parse (pyGetD issue_closed_3_days "dateLogged" "")).getD 0) 86400 = 3 ∧
    Int.fdiv ((iso_epoch_parse (pyGetD issue_closed_4_days "dateClosed" "")).getD 0 -
      (iso_epoch_parse (pyGetD issue_closed_4_days "dateLogged" "")).getD 0) 86400 = 4 ∧
    claim_avg [3, 4] = 7 / 2 ∧
    claim_avg [3, 4] ≠ 0 := by
  have h1 : "time_started" ∉ ISSUES_HEADERS := by decide
  have h2 : ∀ (data : List Dict) (i : Dict),
      i ∈ read_csv (write_csv data ISSUES_HEADERS) →
      pyGet i "time_started" = none := by
    intro data i hi
    rw [read_csv, write_csv] at hi
    dsimp only at hi
    rcases List.mem_map.mp hi with ⟨row, hrow, rfl⟩
    exact pyGet_zip_not_mem _ _ _ h1
  have h3 : ∀ (parse : String → Option Int) (issues : List Dict),
      (∀ i ∈ issues, pyGet i "time_started" = none) →
      dashboard_resolution parse issues = 0 := by
    intro parse issues hnone
    rw [dashboard_resolution,
      dashboard_fold_no_start parse issues hnone ((0 : Int), (0 : Nat))]
    norm_num
  have h7 : claim_avg [3, 4] = 7 / 2 := by
    rw [claim_avg]
    have hq : ((([3, 4] : List Int).sum : ℚ) / (([3, 4] : List Int).length : ℚ)) =
        7 / 2 := by
      norm_num
    simp only [List.isEmpty_cons, Bool.false_eq_true, if_false, hq]
    rw [pyRound1, round_half_even]
    have h35 : (7 : ℚ) / 2 * 10 = 35 := by norm_num
    rw [h35]
    have hf : ⌊(35 : ℚ)⌋ = 35 := by norm_num
    rw [hf]
    norm_num
  refine ⟨h1, h2, h3, ?_, by decide, by decide, h7, ?_⟩
  · intro parse
    exact h3 parse _ (fun i hi => h2 _ i hi)
  · rw [h7]
    norm_num

/-- Witness for dashboard_resolution_dead_field: the two failing-input
records read back through the schema carry no time_started, and the
dashboard average over them is 0 even under the parse table that assigns
their timestamps their epoch values. -/
theorem dashboard_resolution_dead_field_witness :
    (∀ i ∈ read_csv (write_csv [issue_closed_3_days, issue_closed_4_days]
        ISSUES_HEADERS), pyGet i "time_started" = none) ∧
    dashboard_resolution iso_epoch_parse
      (read_csv (write_csv [issue_closed_3_days, issue_closed_4_days]
        ISSUES_HEADERS)) = 0 :=
  ⟨by decide,
    dashboard_resolution_dead_field.2.2.1 iso_epoch_parse
      (read_csv (write_csv [issue_closed_3_days, issue_closed_4_days]
        ISSUES_HEADERS)) (by decide)⟩
